import Mathlib

/-!
Verification of the Aadhaar Ecosystem Health Scoring Engine.

The definitions below are a shallow embedding, over exact rationals, of the
core pipeline in src/src/aadhaar_analysis.py (and, where a claim cites it,
of the auxiliary script src/aadhaar_analysis.py).  Python floats are
modelled as the rational numbers they approximate; pandas columns are
modelled as Lean lists; a DataFrame mutated in place is modelled by an
explicit (state of the argument after the call, returned value) pair.
-/

namespace Aadhaar

/- ===================================================================
   Gini calculator (src/src/aadhaar_analysis.py, calculate_gini, lines
   208-220).
   =================================================================== -/

/-- Ascending sort of a rational column, modelling np.sort. -/
def sortAsc (l : List ℚ) : List ℚ := List.insertionSort (· ≤ ·) l

/-- Rank-weighted sum: np.sum(np.arange(1, n+1) * values), with the head of
the list given rank k (the full expression uses k = 1). -/
def weightedRankSum (k : ℚ) : List ℚ → ℚ
  | [] => 0
  | v :: rest => k * v + weightedRankSum (k + 1) rest

/-- Body of calculate_gini after the positive-entry filter: fewer than two
entries give 0.0, otherwise the ascending-sort rank formula
(2 * sum(rank * value)) / (n * sum) - (n + 1) / n, clamped to the unit
interval by max(0, min(1, gini)). -/
def gini_of_positives (vs : List ℚ) : ℚ :=
  if vs.length < 2 then 0
  else
    max 0 (min 1 ((2 * weightedRankSum 1 (sortAsc vs)) /
      (((sortAsc vs).length : ℚ) * (sortAsc vs).sum) -
      (((sortAsc vs).length : ℚ) + 1) / ((sortAsc vs).length : ℚ)))

/-- calculate_gini: drop nonpositive entries (values[values > 0]), then the
rank formula with clamp. -/
def calculate_gini (values : List ℚ) : ℚ :=
  gini_of_positives (values.filter (fun v => decide (0 < v)))

/-- Sum of the ranks k, k+1, ..., k+n-1. -/
def rankSum (k : ℚ) : ℕ → ℚ
  | 0 => 0
  | n + 1 => k + rankSum (k + 1) n

theorem rankSum_eq (n : ℕ) (k : ℚ) :
    rankSum k n = (n : ℚ) * k + (n : ℚ) * ((n : ℚ) - 1) / 2 := by
  induction n generalizing k with
  | zero => simp [rankSum]
  | succ m ih =>
    rw [rankSum, ih]
    push_cast
    ring

theorem weightedRankSum_const (c : ℚ) (l : List ℚ) (k : ℚ)
    (h : ∀ x ∈ l, x = c) : weightedRankSum k l = c * rankSum k l.length := by
  induction l generalizing k with
  | nil => simp [weightedRankSum, rankSum]
  | cons v rest ih =>
    have hv : v = c := h v (List.mem_cons_self v rest)
    have hrest : ∀ x ∈ rest, x = c := fun x hx => h x (List.mem_cons_of_mem v hx)
    rw [weightedRankSum, ih (k + 1) hrest, hv, List.length_cons, rankSum]
    ring

theorem list_sum_const (c : ℚ) (l : List ℚ) (h : ∀ x ∈ l, x = c) :
    l.sum = (l.length : ℚ) * c := by
  induction l with
  | nil => simp
  | cons v rest ih =>
    have hv : v = c := h v (List.mem_cons_self v rest)
    have hrest : ∀ x ∈ rest, x = c := fun x hx => h x (List.mem_cons_of_mem v hx)
    rw [List.sum_cons, ih hrest, hv, List.length_cons]
    push_cast
    ring

theorem sortAsc_perm (l : List ℚ) : List.Perm (sortAsc l) l :=
  List.perm_insertionSort _ _

theorem sortAsc_eq_of_perm (l₁ l₂ : List ℚ) (h : List.Perm l₁ l₂) :
    sortAsc l₁ = sortAsc l₂ := by
  have ha : IsAntisymm ℚ (fun a b => a ≤ b) := ⟨fun a b h1 h2 => le_antisymm h1 h2⟩
  exact @List.eq_of_perm_of_sorted ℚ _ ha _ _
    ((List.perm_insertionSort _ _).trans (h.trans (List.perm_insertionSort _ _).symm))
    (List.sorted_insertionSort _ _) (List.sorted_insertionSort _ _)

theorem gini_of_positives_perm (vs ws : List ℚ) (h : List.Perm vs ws) :
    gini_of_positives vs = gini_of_positives ws := by
  simp only [gini_of_positives]
  rw [sortAsc_eq_of_perm vs ws h, h.length_eq]

theorem calculate_gini_bounds (values : List ℚ) :
    0 ≤ calculate_gini values ∧ calculate_gini values ≤ 1 := by
  unfold calculate_gini gini_of_positives
  split
  · norm_num
  · exact ⟨le_max_left _ _, max_le (by norm_num) (min_le_left _ _)⟩

/-- C5: the Gini computation discards nonpositive entries; with fewer than
two positive entries left it returns exactly 0, and on any all-equal
multiset of positive values it also returns exactly 0. -/
theorem gini_degenerate_and_allEqual (values : List ℚ) :
    ((values.filter (fun v => decide (0 < v))).length < 2 →
      calculate_gini values = 0)
    ∧ (∀ c : ℚ, 0 < c →
        (∀ v ∈ values.filter (fun v => decide (0 < v)), v = c) →
        calculate_gini values = 0) := by
  constructor
  · intro h
    simp [calculate_gini, gini_of_positives, h]
  · intro c hc hall
    unfold calculate_gini gini_of_positives
    set vs := values.filter (fun v => decide (0 < v)) with hvs
    by_cases hlen : vs.length < 2
    · simp [hlen]
    · simp only [if_neg hlen]
      have hperm := sortAsc_perm vs
      have hall2 : ∀ x ∈ sortAsc vs, x = c := fun x hx => hall x (hperm.subset hx)
      have hlen2 : (sortAsc vs).length = vs.length := hperm.length_eq
      have hn : 2 ≤ vs.length := not_lt.mp hlen
      have hnpos : (0 : ℚ) < (vs.length : ℚ) := by
        exact_mod_cast lt_of_lt_of_le (by norm_num) hn
      have hne : (vs.length : ℚ) ≠ 0 := ne_of_gt hnpos
      have hcne : c ≠ 0 := ne_of_gt hc
      rw [weightedRankSum_const c _ 1 hall2, list_sum_const c _ hall2,
        rankSum_eq, hlen2]
      have hzero : 2 * (c * ((vs.length : ℚ) * 1 +
            (vs.length : ℚ) * ((vs.length : ℚ) - 1) / 2)) /
            ((vs.length : ℚ) * ((vs.length : ℚ) * c)) -
            ((vs.length : ℚ) + 1) / (vs.length : ℚ) = 0 := by
        field_simp
        ring
      rw [hzero]
      norm_num

/-- All-zero entries contribute nothing to the positive filter. -/
theorem filter_pos_replicate_zero (k : ℕ) :
    (List.replicate k (0 : ℚ)).filter (fun v => decide (0 < v)) = [] := by
  induction k with
  | zero => simp
  | succ m ih => simp [List.replicate_succ, List.filter_cons, ih]

/-- C10: the Gini computation is invariant under permutation of its input
and under appending zero-valued entries. -/
theorem gini_perm_and_zero_append (v p : List ℚ) (k : ℕ)
    (h : List.Perm v p) :
    calculate_gini p = calculate_gini v
    ∧ calculate_gini (v ++ List.replicate k 0) = calculate_gini v := by
  constructor
  · exact gini_of_positives_perm _ _ ((h.symm).filter _)
  · unfold calculate_gini
    rw [List.filter_append, filter_pos_replicate_zero, List.append_nil]

theorem gini_degenerate_and_allEqual_witness :
    calculate_gini [5] = 0 ∧ calculate_gini [3, 3, 3] = 0 := by
  constructor
  · refine (gini_degenerate_and_allEqual [5]).1 ?_
    norm_num [List.filter_cons, List.filter_nil]
  · refine (gini_degenerate_and_allEqual [3, 3, 3]).2 3 (by norm_num) ?_
    intro v hv
    norm_num [List.filter_cons, List.filter_nil] at hv
    exact hv

theorem gini_perm_and_zero_append_witness :
    calculate_gini [2, 1] = calculate_gini [1, 2]
    ∧ calculate_gini ([1, 2] ++ List.replicate 1 0) = calculate_gini [1, 2] :=
  gini_perm_and_zero_append [1, 2] [2, 1] 1 (List.Perm.swap 2 1 [])

/- ===================================================================
   Pillar metric calculator (src/src/aadhaar_analysis.py,
   calculate_metrics, lines 223-303).
   =================================================================== -/

/-- One row of the state-level aggregate table produced by
aggregate_by_state: summed age-bracket counts per state. -/
structure StateRow where
  state : List Char
  age_0_5 : ℚ
  age_5_17 : ℚ
  age_18_greater : ℚ
  bio_age_5_17 : ℚ
  bio_age_17_ : ℚ
  demo_age_5_17 : ℚ
  demo_age_17_ : ℚ

def total_enrolment (r : StateRow) : ℚ := r.age_0_5 + r.age_5_17 + r.age_18_greater

def total_bio (r : StateRow) : ℚ := r.bio_age_5_17 + r.bio_age_17_

def total_demo (r : StateRow) : ℚ := r.demo_age_5_17 + r.demo_age_17_

def total_updates (r : StateRow) : ℚ := total_bio r + total_demo r

/-- Per-state input to calculate_metrics: the state aggregate row, this
state's district update totals (district_data restricted to the state),
this state's monthly update totals (monthly_data restricted to the state),
and the population standard deviation np.std(monthly).  The standard
deviation of a rational series is irrational in general, so it enters the
model as a field; theorems that use it assume only what np.std guarantees
(nonnegativity, and squaring to the population variance where needed). -/
structure StateInput where
  row : StateRow
  districts : List ℚ
  monthly : List ℚ
  monthly_std : ℚ

/-- np.mean: sum divided by length. -/
def listMean (l : List ℚ) : ℚ := l.sum / (l.length : ℚ)

def national_enrolment (ss : List StateInput) : ℚ :=
  (ss.map (fun s => total_enrolment s.row)).sum

def national_updates (ss : List StateInput) : ℚ :=
  (ss.map (fun s => total_updates s.row)).sum

def national_youth_updates (ss : List StateInput) : ℚ :=
  (ss.map (fun s => s.row.bio_age_5_17 + s.row.demo_age_5_17)).sum

def national_adult_updates (ss : List StateInput) : ℚ :=
  (ss.map (fun s => s.row.bio_age_17_ + s.row.demo_age_17_)).sum

/-- national_youth_ratio = national_youth_updates / national_adult_updates
if national_adult_updates > 0 else 0 (line 245). -/
def national_youth_ratio (ss : List StateInput) : ℚ :=
  if 0 < national_adult_updates ss then
    national_youth_updates ss / national_adult_updates ss
  else 0

/-- state_youth_ratio = state_youth / state_adult if state_adult > 0 else 0
(line 267 of src/src/aadhaar_analysis.py). -/
def state_youth_ratio (state_youth state_adult : ℚ) : ℚ :=
  if 0 < state_adult then state_youth / state_adult else 0

/-- The same ratio in the auxiliary script src/aadhaar_analysis.py (lines
104-107): the divisor is adult_updates.replace(0, 1), so a zero divisor is
replaced by 1 instead of zeroing the ratio. -/
def state_youth_update_ratio_alt (youth_updates adult_updates : ℚ) : ℚ :=
  youth_updates / (if adult_updates = 0 then 1 else adult_updates)

/-- The five pillar metrics of one state, plus the stored shares. -/
structure Metrics where
  state : List Char
  IDI : ℚ
  UBI : ℚ
  YIR : ℚ
  GCI : ℚ
  TCS : ℚ
  enrol_share : ℚ
  update_share : ℚ

/-- Loop body of calculate_metrics (lines 252-295) for one state, with the
national totals precomputed. -/
def calculate_metrics_row (nat_enrol nat_upd nat_youth_ratio : ℚ)
    (s : StateInput) : Metrics :=
  let enrol_share := if 0 < nat_enrol then total_enrolment s.row / nat_enrol else 0
  let update_share := if 0 < nat_upd then total_updates s.row / nat_upd else 0
  let idi := enrol_share - update_share
  let tu := total_bio s.row + total_demo s.row
  let ubi := if 0 < tu then total_bio s.row / tu else 0.5
  let state_youth := s.row.bio_age_5_17 + s.row.demo_age_5_17
  let state_adult := s.row.bio_age_17_ + s.row.demo_age_17_
  let syr := state_youth_ratio state_youth state_adult
  let yir := if 0 < nat_youth_ratio then syr / nat_youth_ratio else 1
  let gci := if 1 < s.districts.length then calculate_gini s.districts else 0
  let tcs := if 1 < s.monthly.length ∧ 0 < listMean s.monthly then
    max 0 (1 - s.monthly_std / listMean s.monthly) else 0.5
  { state := s.row.state, IDI := idi, UBI := ubi, YIR := yir, GCI := gci,
    TCS := tcs, enrol_share := enrol_share, update_share := update_share }

def calculate_metrics (ss : List StateInput) : List Metrics :=
  ss.map (calculate_metrics_row (national_enrolment ss) (national_updates ss)
    (national_youth_ratio ss))

theorem list_sum_map_sub {α : Type} (l : List α) (f g : α → ℚ) :
    (l.map (fun x => f x - g x)).sum = (l.map f).sum - (l.map g).sum := by
  induction l with
  | nil => simp
  | cons x xs ih => simp [ih]; ring

theorem list_sum_map_div {α : Type} (l : List α) (f : α → ℚ) (c : ℚ) :
    (l.map (fun x => f x / c)).sum = (l.map f).sum / c := by
  induction l with
  | nil => simp
  | cons x xs ih => simp [ih, add_div]

/-- C4: in exact arithmetic, with both national totals positive, the IDI
column of calculate_metrics sums to exactly 0. -/
theorem idi_sum_zero (ss : List StateInput)
    (he : 0 < national_enrolment ss) (hu : 0 < national_updates ss) :
    ((calculate_metrics ss).map Metrics.IDI).sum = 0 := by
  have hrow : ∀ s : StateInput,
      (calculate_metrics_row (national_enrolment ss) (national_updates ss)
        (national_youth_ratio ss) s).IDI
      = total_enrolment s.row / national_enrolment ss
        - total_updates s.row / national_updates ss := by
    intro s
    simp [calculate_metrics_row, if_pos he, if_pos hu]
  calc ((calculate_metrics ss).map Metrics.IDI).sum
      = (ss.map (fun s => total_enrolment s.row / national_enrolment ss
          - total_updates s.row / national_updates ss)).sum := by
        simp [calculate_metrics, List.map_map, Function.comp]
        exact congrArg List.sum (List.map_congr_left (fun s _ => hrow s))
    _ = 0 := by
        rw [list_sum_map_sub, list_sum_map_div, list_sum_map_div]
        rw [show (ss.map (fun s => total_enrolment s.row)).sum
            = national_enrolment ss from rfl]
        rw [show (ss.map (fun s => total_updates s.row)).sum
            = national_updates ss from rfl]
        rw [div_self (ne_of_gt he), div_self (ne_of_gt hu)]
        ring

/-- Example state: the literal scenario of the spec (enrolment 100/200/700,
biometric 150/100, demographic 150/100), two districts, two months with a
perfect-square variance so that np.std is the rational 1. -/
def rowEx : StateRow :=
  { state := ['A'], age_0_5 := 100, age_5_17 := 200, age_18_greater := 700,
    bio_age_5_17 := 150, bio_age_17_ := 100, demo_age_5_17 := 150,
    demo_age_17_ := 100 }

def sEx : StateInput :=
  { row := rowEx, districts := [10, 30], monthly := [1, 3], monthly_std := 1 }

theorem idi_sum_zero_witness :
    ((calculate_metrics [sEx]).map Metrics.IDI).sum = 0 :=
  idi_sum_zero [sEx]
    (by norm_num [national_enrolment, total_enrolment, sEx, rowEx])
    (by norm_num [national_updates, total_updates, total_bio, total_demo,
      sEx, rowEx])

/-- C2 counterexample: in the core pipeline, a region with positive youth
updates and zero adult updates gets ratio 0, not its youth updates. -/
theorem state_youth_ratio_zero_adult_cex :
    state_youth_ratio 5 0 = 0 ∧ state_youth_ratio 5 0 ≠ 5 := by
  norm_num [state_youth_ratio]

/-- C2 amended: when a region's adult updates equal 0, the core
calculate_metrics sets the youth-to-adult ratio to 0; only the auxiliary
script substitutes 1 as the divisor, making its ratio equal the youth
updates. -/
theorem state_youth_ratio_zero_adult (youth adult : ℚ) (h : adult = 0) :
    state_youth_ratio youth adult = 0
    ∧ state_youth_update_ratio_alt youth adult = youth := by
  subst h
  constructor
  · simp [state_youth_ratio]
  · simp [state_youth_update_ratio_alt]

theorem state_youth_ratio_zero_adult_witness :
    state_youth_ratio 5 0 = 0 ∧ state_youth_update_ratio_alt 5 0 = 5 :=
  state_youth_ratio_zero_adult 5 0 rfl

/-- Nonnegative per-age-bracket counts for a state aggregate row. -/
def NonnegRow (r : StateRow) : Prop :=
  0 ≤ r.age_0_5 ∧ 0 ≤ r.age_5_17 ∧ 0 ≤ r.age_18_greater
  ∧ 0 ≤ r.bio_age_5_17 ∧ 0 ≤ r.bio_age_17_
  ∧ 0 ≤ r.demo_age_5_17 ∧ 0 ≤ r.demo_age_17_

theorem metrics_row_UBI_bounds (E U R : ℚ) (s : StateInput)
    (h : NonnegRow s.row) :
    0 ≤ (calculate_metrics_row E U R s).UBI
    ∧ (calculate_metrics_row E U R s).UBI ≤ 1 := by
  obtain ⟨h1, h2, h3, h4, h5, h6, h7⟩ := h
  have hb : 0 ≤ total_bio s.row := add_nonneg h4 h5
  have hd : 0 ≤ total_demo s.row := add_nonneg h6 h7
  simp only [calculate_metrics_row]
  split_ifs with h0
  · exact ⟨div_nonneg hb (le_of_lt h0),
      (div_le_one h0).mpr (le_add_of_nonneg_right hd)⟩
  · norm_num

theorem metrics_row_GCI_bounds (E U R : ℚ) (s : StateInput) :
    0 ≤ (calculate_metrics_row E U R s).GCI
    ∧ (calculate_metrics_row E U R s).GCI ≤ 1 := by
  simp only [calculate_metrics_row]
  split_ifs with h0
  · exact calculate_gini_bounds s.districts
  · norm_num

theorem metrics_row_TCS_bounds (E U R : ℚ) (s : StateInput)
    (hstd : 0 ≤ s.monthly_std) :
    0 ≤ (calculate_metrics_row E U R s).TCS
    ∧ (calculate_metrics_row E U R s).TCS ≤ 1 := by
  simp only [calculate_metrics_row]
  split_ifs with h0
  · refine ⟨le_max_left _ _, max_le (by norm_num) ?_⟩
    have : 0 ≤ s.monthly_std / listMean s.monthly :=
      div_nonneg hstd (le_of_lt h0.2)
    linarith
  · norm_num

theorem metrics_row_YIR_nonneg (E U R : ℚ) (s : StateInput)
    (h : NonnegRow s.row) : 0 ≤ (calculate_metrics_row E U R s).YIR := by
  obtain ⟨h1, h2, h3, h4, h5, h6, h7⟩ := h
  have hsyr : 0 ≤ state_youth_ratio (s.row.bio_age_5_17 + s.row.demo_age_5_17)
      (s.row.bio_age_17_ + s.row.demo_age_17_) := by
    unfold state_youth_ratio
    split_ifs with ha
    · exact div_nonneg (add_nonneg h4 h6) (le_of_lt ha)
    · exact le_refl 0
  simp only [calculate_metrics_row]
  split_ifs with hR
  · exact div_nonneg hsyr (le_of_lt hR)
  · norm_num

/-- C6: for every region computed from nonnegative counts, the pillar
metrics UBI, GCI and TCS each lie in the unit interval. -/
theorem pillar_metrics_unit_interval (ss : List StateInput)
    (h : ∀ s ∈ ss, NonnegRow s.row ∧ 0 ≤ s.monthly_std) :
    ∀ m ∈ calculate_metrics ss,
      (0 ≤ m.UBI ∧ m.UBI ≤ 1) ∧ (0 ≤ m.GCI ∧ m.GCI ≤ 1)
      ∧ (0 ≤ m.TCS ∧ m.TCS ≤ 1) := by
  intro m hm
  obtain ⟨s, hs, rfl⟩ := List.mem_map.mp hm
  obtain ⟨hrow, hstd⟩ := h s hs
  exact ⟨metrics_row_UBI_bounds _ _ _ s hrow,
    metrics_row_GCI_bounds _ _ _ s,
    metrics_row_TCS_bounds _ _ _ s hstd⟩

/-- The metrics row computed for the example state. -/
def mEx : Metrics :=
  calculate_metrics_row (national_enrolment [sEx]) (national_updates [sEx])
    (national_youth_ratio [sEx]) sEx

theorem pillar_metrics_unit_interval_witness :
    (0 ≤ mEx.UBI ∧ mEx.UBI ≤ 1) ∧ (0 ≤ mEx.GCI ∧ mEx.GCI ≤ 1)
    ∧ (0 ≤ mEx.TCS ∧ mEx.TCS ≤ 1) :=
  pillar_metrics_unit_interval [sEx]
    (by
      intro s hs
      rw [List.mem_singleton] at hs
      subst hs
      refine ⟨?_, by norm_num [sEx]⟩
      norm_num [NonnegRow, sEx, rowEx])
    mEx (by simp [calculate_metrics, mEx])

/- ===================================================================
   Health scorer (src/src/aadhaar_analysis.py, calculate_health_score,
   lines 306-344).
   =================================================================== -/

/-- pandas clip(lo, hi): values below lo become lo, above hi become hi. -/
def clip (lo hi x : ℚ) : ℚ := min hi (max lo x)

/-- pandas column min over a nonempty column (the empty case never arises
in the pipeline; it is given the junk value 0). -/
def colMin : List ℚ → ℚ
  | [] => 0
  | x :: xs => xs.foldl min x

def colMax : List ℚ → ℚ
  | [] => 0
  | x :: xs => xs.foldl max x

/-- IDI_score = 100 * (1 - (IDI - min) / (max - min + 0.001)). -/
def IDI_score (idi_min idi_max idi : ℚ) : ℚ :=
  100 * (1 - (idi - idi_min) / (idi_max - idi_min + 0.001))

/-- UBI_score = 100 * (1 - abs(UBI - 0.425) / 0.425), clipped to [0,100]. -/
def UBI_score (ubi : ℚ) : ℚ := clip 0 100 (100 * (1 - |ubi - 0.425| / 0.425))

/-- YIR_score = 100 * min(YIR, 1.5) / 1.5. -/
def YIR_score (yir : ℚ) : ℚ := 100 * min yir 1.5 / 1.5

/-- GCI_score = 100 * (1 - GCI). -/
def GCI_score (gci : ℚ) : ℚ := 100 * (1 - gci)

/-- TCS_score = 100 * TCS. -/
def TCS_score (tcs : ℚ) : ℚ := 100 * tcs

/-- Health_Score = 0.25 IDI_score + 0.25 GCI_score + 0.20 TCS_score
+ 0.20 YIR_score + 0.10 UBI_score, the min and max of the IDI column being
global to the table. -/
def Health_Score (idi_min idi_max : ℚ) (m : Metrics) : ℚ :=
  0.25 * IDI_score idi_min idi_max m.IDI + 0.25 * GCI_score m.GCI
  + 0.20 * TCS_score m.TCS + 0.20 * YIR_score m.YIR + 0.10 * UBI_score m.UBI

def calculate_health_score (ms : List Metrics) : List ℚ :=
  ms.map (Health_Score (colMin (ms.map Metrics.IDI))
    (colMax (ms.map Metrics.IDI)))

theorem foldl_min_le (xs : List ℚ) (a : ℚ) :
    xs.foldl min a ≤ a ∧ ∀ x ∈ xs, xs.foldl min a ≤ x := by
  induction xs generalizing a with
  | nil => simp
  | cons y ys ih =>
    have h := ih (min a y)
    refine ⟨h.1.trans (min_le_left a y), ?_⟩
    intro x hx
    rcases List.mem_cons.mp hx with rfl | hx
    · exact h.1.trans (min_le_right a x)
    · exact h.2 x hx

theorem foldl_max_ge (xs : List ℚ) (a : ℚ) :
    a ≤ xs.foldl max a ∧ ∀ x ∈ xs, x ≤ xs.foldl max a := by
  induction xs generalizing a with
  | nil => simp
  | cons y ys ih =>
    have h := ih (max a y)
    refine ⟨(le_max_left a y).trans h.1, ?_⟩
    intro x hx
    rcases List.mem_cons.mp hx with rfl | hx
    · exact (le_max_right a x).trans h.1
    · exact h.2 x hx

theorem colMin_le_mem (l : List ℚ) (x : ℚ) (h : x ∈ l) : colMin l ≤ x := by
  cases l with
  | nil => cases h
  | cons y ys =>
    rcases List.mem_cons.mp h with rfl | hx
    · exact (foldl_min_le ys x).1
    · exact (foldl_min_le ys y).2 x hx

theorem mem_le_colMax (l : List ℚ) (x : ℚ) (h : x ∈ l) : x ≤ colMax l := by
  cases l with
  | nil => cases h
  | cons y ys =>
    rcases List.mem_cons.mp h with rfl | hx
    · exact (foldl_max_ge ys x).1
    · exact (foldl_max_ge ys y).2 x hx

theorem clip_bounds (lo hi x : ℚ) (h : lo ≤ hi) :
    lo ≤ clip lo hi x ∧ clip lo hi x ≤ hi :=
  ⟨le_min h (le_max_left lo x), min_le_left hi _⟩

theorem IDI_score_bounds (imin imax idi : ℚ) (h1 : imin ≤ idi)
    (h2 : idi ≤ imax) :
    0 ≤ IDI_score imin imax idi ∧ IDI_score imin imax idi ≤ 100 := by
  have hd : 0 < imax - imin + 0.001 := by linarith
  have hr0 : 0 ≤ (idi - imin) / (imax - imin + 0.001) :=
    div_nonneg (by linarith) hd.le
  have hr1 : (idi - imin) / (imax - imin + 0.001) ≤ 1 := by
    rw [div_le_one hd]
    linarith
  unfold IDI_score
  constructor <;> nlinarith

theorem UBI_score_bounds (u : ℚ) : 0 ≤ UBI_score u ∧ UBI_score u ≤ 100 :=
  clip_bounds 0 100 _ (by norm_num)

theorem YIR_score_bounds (y : ℚ) (h : 0 ≤ y) :
    0 ≤ YIR_score y ∧ YIR_score y ≤ 100 := by
  have h1 : min y 1.5 ≤ 1.5 := min_le_right _ _
  have h2 : 0 ≤ min y 1.5 := le_min h (by norm_num)
  unfold YIR_score
  constructor
  · exact div_nonneg (mul_nonneg (by norm_num) h2) (by norm_num)
  · rw [div_le_iff₀ (by norm_num : (0 : ℚ) < 1.5)]
    nlinarith

theorem GCI_score_bounds (g : ℚ) (h0 : 0 ≤ g) (h1 : g ≤ 1) :
    0 ≤ GCI_score g ∧ GCI_score g ≤ 100 := by
  unfold GCI_score
  constructor <;> nlinarith

theorem TCS_score_bounds (t : ℚ) (h0 : 0 ≤ t) (h1 : t ≤ 1) :
    0 ≤ TCS_score t ∧ TCS_score t ≤ 100 := by
  unfold TCS_score
  constructor <;> nlinarith

/-- C3: for inputs with nonnegative counts, every composite health score of
the pipeline lies in [0, 100]. -/
theorem health_score_in_range (ss : List StateInput)
    (h : ∀ s ∈ ss, NonnegRow s.row ∧ 0 ≤ s.monthly_std) :
    ∀ hsc ∈ calculate_health_score (calculate_metrics ss),
      0 ≤ hsc ∧ hsc ≤ 100 := by
  intro hsc hmem
  unfold calculate_health_score at hmem
  obtain ⟨m, hm, rfl⟩ := List.mem_map.mp hmem
  have hmin : colMin ((calculate_metrics ss).map Metrics.IDI) ≤ m.IDI :=
    colMin_le_mem _ _ (List.mem_map_of_mem Metrics.IDI hm)
  have hmax : m.IDI ≤ colMax ((calculate_metrics ss).map Metrics.IDI) :=
    mem_le_colMax _ _ (List.mem_map_of_mem Metrics.IDI hm)
  obtain ⟨s, hs, hmeq⟩ := List.mem_map.mp hm
  obtain ⟨hrow, hstd⟩ := h s hs
  subst hmeq
  obtain ⟨ha0, ha1⟩ := IDI_score_bounds _ _ _ hmin hmax
  obtain ⟨hb0, hb1⟩ :=
    GCI_score_bounds _ (metrics_row_GCI_bounds _ _ _ s).1
      (metrics_row_GCI_bounds _ _ _ s).2
  obtain ⟨hc0, hc1⟩ :=
    TCS_score_bounds _ (metrics_row_TCS_bounds _ _ _ s hstd).1
      (metrics_row_TCS_bounds _ _ _ s hstd).2
  obtain ⟨he0, he1⟩ :=
    YIR_score_bounds _ (metrics_row_YIR_nonneg _ _ _ s hrow)
  obtain ⟨hf0, hf1⟩ := UBI_score_bounds
    (calculate_metrics_row (national_enrolment ss) (national_updates ss)
      (national_youth_ratio ss) s).UBI
  unfold Health_Score
  constructor <;> linarith

/-- The health score computed for the example state. -/
def healthEx : ℚ :=
  Health_Score (colMin ((calculate_metrics [sEx]).map Metrics.IDI))
    (colMax ((calculate_metrics [sEx]).map Metrics.IDI)) mEx

theorem health_score_in_range_witness : 0 ≤ healthEx ∧ healthEx ≤ 100 :=
  health_score_in_range [sEx]
    (by
      intro s hs
      rw [List.mem_singleton] at hs
      subst hs
      refine ⟨?_, by norm_num [sEx]⟩
      norm_num [NonnegRow, sEx, rowEx])
    healthEx (by simp [calculate_health_score, calculate_metrics, healthEx, mEx])

/- ===================================================================
   Archetype classifier (src/src/aadhaar_analysis.py, classify_archetype,
   lines 351-378).
   =================================================================== -/

/-- The fields of a metrics row read by classify_archetype. -/
structure ClassifierRow where
  YIR : ℚ
  UBI : ℚ
  GCI : ℚ
  TCS : ℚ
  IDI : ℚ
  Health_Score : ℚ

/-- classify_archetype, translated branch for branch in source order. -/
def classify_archetype (row : ClassifierRow) : String :=
  if row.YIR < 0.6 then "Excluded (Youth)"
  else if row.UBI < 0.25 ∨ row.UBI > 0.65 then "Excluded (Update Imbalance)"
  else if row.GCI > 0.6 then "Excluded (Geographic)"
  else if row.TCS < 0.4 ∧ row.Health_Score < 40 then "Sleepwalker"
  else if row.Health_Score > 70 ∧ row.TCS > 0.6 ∧ row.GCI < 0.4
      ∧ row.YIR > 0.8 then "Digital Leader"
  else if row.IDI > 0.03 then "Sprinter"
  else "Moderate"

/-- The rule cascade as the spec words it: an ordered list of
(predicate, label) pairs. -/
def archetypeRules : List ((ClassifierRow → Bool) × String) :=
  [ (fun r => decide (r.YIR < 0.6), "Excluded (Youth)"),
    (fun r => decide (r.UBI < 0.25 ∨ r.UBI > 0.65), "Excluded (Update Imbalance)"),
    (fun r => decide (r.GCI > 0.6), "Excluded (Geographic)"),
    (fun r => decide (r.TCS < 0.4 ∧ r.Health_Score < 40), "Sleepwalker"),
    (fun r => decide (r.Health_Score > 70 ∧ r.TCS > 0.6 ∧ r.GCI < 0.4
      ∧ r.YIR > 0.8), "Digital Leader"),
    (fun r => decide (r.IDI > 0.03), "Sprinter") ]

/-- First-matching-rule evaluation with a default label. -/
def firstMatch (rules : List ((ClassifierRow → Bool) × String)) (dflt : String)
    (r : ClassifierRow) : String :=
  match rules with
  | [] => dflt
  | (p, label) :: rest => if p r then label else firstMatch rest dflt r

/-- C1: classify_archetype is exactly the priority-ordered cascade of the
spec (first matching rule wins, default Moderate), and rule 1 firing forces
the label Excluded (Youth) whatever the other metrics are. -/
theorem classify_archetype_cascade (r : ClassifierRow) :
    classify_archetype r = firstMatch archetypeRules "Moderate" r
    ∧ (r.YIR < 0.6 → classify_archetype r = "Excluded (Youth)") := by
  constructor
  · simp only [classify_archetype, archetypeRules, firstMatch,
      decide_eq_true_eq]
  · intro h
    simp [classify_archetype, if_pos h]

theorem classify_archetype_cascade_witness :
    classify_archetype
      { YIR := 0, UBI := 0.425, GCI := 0, TCS := 1, IDI := 0,
        Health_Score := 100 } = "Excluded (Youth)" :=
  (classify_archetype_cascade _).2 (by norm_num)

/- ===================================================================
   Risk mapper (src/src/aadhaar_analysis.py, calculate_problem_risks,
   lines 416-485).
   =================================================================== -/

/-- PDS_Risk: np.where(age_18_greater > 0, (1 - bio_age_17_ /
age_18_greater) * 100, 0).clip(0, 100). -/
def PDS_Risk (bio_age_17_ age_18_greater : ℚ) : ℚ :=
  clip 0 100
    (if 0 < age_18_greater then (1 - bio_age_17_ / age_18_greater) * 100 else 0)

/-- DBT_Risk: np.where(age_18_greater > 0, (1 - demo_age_17_ /
age_18_greater) * 100, 0).clip(0, 100). -/
def DBT_Risk (demo_age_17_ age_18_greater : ℚ) : ℚ :=
  clip 0 100
    (if 0 < age_18_greater then (1 - demo_age_17_ / age_18_greater) * 100 else 0)

/-- Scholarship_Risk = ((1 - YIR) * 100).clip(0, 100). -/
def Scholarship_Risk (yir : ℚ) : ℚ := clip 0 100 ((1 - yir) * 100)

/-- OTP_Risk: np.where(age_5_17 > 0, (age_5_17 - demo_age_5_17) / age_5_17
* 100, 0).clip(0, 100). -/
def OTP_Risk (age_5_17 demo_age_5_17 : ℚ) : ℚ :=
  clip 0 100
    (if 0 < age_5_17 then (age_5_17 - demo_age_5_17) / age_5_17 * 100 else 0)

/-- Banking_Risk = (100 - Health_Score).clip(0, 100). -/
def Banking_Risk (health : ℚ) : ℚ := clip 0 100 (100 - health)

/-- C7: PDS and DBT risks equal the clamped formulas on a positive adult
enrolment, are exactly 0 when adult enrolment is 0, and always lie in
[0, 100]. -/
theorem pds_dbt_risk_spec (b d a : ℚ) :
    (0 < a → PDS_Risk b a = clip 0 100 (100 * (1 - b / a))
      ∧ DBT_Risk d a = clip 0 100 (100 * (1 - d / a)))
    ∧ (a = 0 → PDS_Risk b a = 0 ∧ DBT_Risk d a = 0)
    ∧ (0 ≤ PDS_Risk b a ∧ PDS_Risk b a ≤ 100
      ∧ 0 ≤ DBT_Risk d a ∧ DBT_Risk d a ≤ 100) := by
  refine ⟨?_, ?_, ?_⟩
  · intro ha
    constructor
    · unfold PDS_Risk
      rw [if_pos ha]
      ring_nf
    · unfold DBT_Risk
      rw [if_pos ha]
      ring_nf
  · intro ha
    subst ha
    constructor
    · unfold PDS_Risk
      rw [if_neg (lt_irrefl 0)]
      simp [clip]
    · unfold DBT_Risk
      rw [if_neg (lt_irrefl 0)]
      simp [clip]
  · exact ⟨(clip_bounds 0 100 _ (by norm_num)).1,
      (clip_bounds 0 100 _ (by norm_num)).2,
      (clip_bounds 0 100 _ (by norm_num)).1,
      (clip_bounds 0 100 _ (by norm_num)).2⟩

theorem pds_dbt_risk_spec_witness :
    PDS_Risk 3 0 = 0 ∧ DBT_Risk 7 0 = 0 :=
  (pds_dbt_risk_spec 3 7 0).2.1 rfl

/- ===================================================================
   Date parsing and preprocessing (src/src/aadhaar_analysis.py,
   preprocess_data, lines 75-112; src/aadhaar_analysis.py, load_data,
   lines 29-30).  Raw strings are modelled as character lists.
   =================================================================== -/

/-- Split a character list on the dash separator. -/
def splitOnDash : List Char → List (List Char)
  | [] => [[]]
  | c :: rest =>
    if c = '-' then [] :: splitOnDash rest
    else
      match splitOnDash rest with
      | [] => [[c]]
      | g :: gs => (c :: g) :: gs

/-- Numeric value of a digit string. -/
def digitsToNat (s : List Char) : Nat :=
  s.foldl (fun acc c => 10 * acc + (c.toNat - 48)) 0

def isLeapYear (y : Nat) : Bool :=
  (y % 4 == 0 && y % 100 != 0) || (y % 400 == 0)

def daysInMonth (y m : Nat) : Nat :=
  if m = 2 then (if isLeapYear y then 29 else 28)
  else if m = 4 ∨ m = 6 ∨ m = 9 ∨ m = 11 then 30
  else 31

/-- Calendar parse of a dd-mm-yyyy string, the format %d-%m-%Y that
preprocess_data hands to pd.to_datetime: three dash-separated digit groups
forming a valid calendar date, or a parse failure. -/
def parseDateDMY (s : List Char) : Option (Nat × Nat × Nat) :=
  match splitOnDash s with
  | [ds, ms, ys] =>
    if ds.all Char.isDigit ∧ ms.all Char.isDigit ∧ ys.all Char.isDigit
        ∧ 1 ≤ ds.length ∧ ds.length ≤ 2 ∧ 1 ≤ ms.length ∧ ms.length ≤ 2
        ∧ 1 ≤ ys.length ∧ ys.length ≤ 4 then
      if 1 ≤ digitsToNat ms ∧ digitsToNat ms ≤ 12 ∧ 1 ≤ digitsToNat ds
          ∧ digitsToNat ds ≤ daysInMonth (digitsToNat ys) (digitsToNat ms) then
        some (digitsToNat ds, digitsToNat ms, digitsToNat ys)
      else none
    else none
  | _ => none

/-- A cell of the date column: a raw string before parsing, a calendar date
(year, month, day) after. -/
inductive CellVal where
  | str : List Char → CellVal
  | date : Nat → Nat → Nat → CellVal
  deriving DecidableEq

def parse_cell (c : CellVal) : Option CellVal :=
  match c with
  | CellVal.str s =>
    match parseDateDMY s with
    | some (d, m, y) => some (CellVal.date y m d)
    | none => none
  | CellVal.date y m d => some (CellVal.date y m d)

/-- pd.to_datetime with its default errors behaviour (preprocess_data,
line 84, passes no errors argument, so errors stays at raise): the first
unparseable entry aborts the whole conversion. -/
def to_datetime_raise : List CellVal → Except CellVal (List CellVal)
  | [] => Except.ok []
  | c :: rest =>
    match parse_cell c with
    | none => Except.error c
    | some v =>
      match to_datetime_raise rest with
      | Except.error e => Except.error e
      | Except.ok vs => Except.ok (v :: vs)

/-- pd.to_datetime with errors set to coerce (load_data of
src/aadhaar_analysis.py, line 30): unparseable entries become NaT (none);
the rows are kept, nothing is dropped and nothing is counted. -/
def to_datetime_coerce (col : List CellVal) : List (Option CellVal) :=
  col.map parse_cell

/-- C8 decided: a stream with one bad date. The core conversion aborts
with an error (fatal to the run, nothing is dropped-with-count), and the
auxiliary loader keeps the record as NaT without dropping or counting it. -/
theorem unparseable_date_fatal :
    to_datetime_raise
      [CellVal.str ['1', '5', '-', '0', '1', '-', '2', '0', '2', '5'],
        CellVal.str ['b', 'a', 'd']]
      = Except.error (CellVal.str ['b', 'a', 'd'])
    ∧ to_datetime_coerce
      [CellVal.str ['1', '5', '-', '0', '1', '-', '2', '0', '2', '5'],
        CellVal.str ['b', 'a', 'd']]
      = [some (CellVal.date 2025 1 15), none] := by
  constructor <;> rfl

def isSpaceChar (c : Char) : Bool :=
  c == ' ' || c == '\t' || c == '\n' || c == '\r'

/-- str.strip: remove leading and trailing whitespace. -/
def strip (s : List Char) : List Char :=
  ((s.dropWhile isSpaceChar).reverse.dropWhile isSpaceChar).reverse

/-- str.title word-capitalisation: upper-case a letter that follows a
non-letter, lower-case a letter that follows a letter. -/
def titleCaseGo : Bool → List Char → List Char
  | _, [] => []
  | prevAlpha, c :: rest =>
    if c.isAlpha then
      (if prevAlpha then c.toLower else c.toUpper) :: titleCaseGo true rest
    else c :: titleCaseGo false rest

def titleCase (s : List Char) : List Char := titleCaseGo false s

/-- The state and district name standardisation of preprocess_data,
line 95: strip then title-case. -/
def standardize_name (s : List Char) : List Char := titleCase (strip s)

def month_of (c : CellVal) : Nat × Nat :=
  match c with
  | CellVal.date y m _ => (y, m)
  | CellVal.str _ => (0, 0)

def zipWith3Sum (a b c : List ℚ) : List ℚ :=
  List.zipWith (fun x y => x + y) (List.zipWith (fun x y => x + y) a b) c

/-- The enrolment DataFrame as a column store.  Columns that
preprocess_data creates (month, total_enrolment) are absent (none) on the
raw frame and present (some) afterwards. -/
structure EnrolFrame where
  state : List (List Char)
  district : List (List Char)
  date : List CellVal
  month : Option (List (Nat × Nat))
  age_0_5 : List ℚ
  age_5_17 : List ℚ
  age_18_greater : List ℚ
  total_enrolment : Option (List ℚ)

/-- preprocess_data restricted to the enrolment frame (lines 84-103):
parse the date column in place, add the month column, standardise state
and district names in place, add the total_enrolment column.  An
unparseable date raises before any column is assigned. -/
def preprocess_enrolment (f : EnrolFrame) : Except CellVal EnrolFrame :=
  match to_datetime_raise f.date with
  | Except.error e => Except.error e
  | Except.ok parsed =>
    Except.ok
      { state := f.state.map standardize_name,
        district := f.district.map standardize_name,
        date := parsed,
        month := some (parsed.map month_of),
        age_0_5 := f.age_0_5,
        age_5_17 := f.age_5_17,
        age_18_greater := f.age_18_greater,
        total_enrolment := some (zipWith3Sum f.age_0_5 f.age_5_17
          f.age_18_greater) }

/-- Effect of calling preprocess_data on the enrolment frame: every column
assignment in the source targets the frame passed in, so on success the
argument after the call holds the preprocessed frame and that same frame is
returned; on a raise the argument is untouched. -/
def preprocess_data_stage (f : EnrolFrame) :
    EnrolFrame × Except CellVal EnrolFrame :=
  match preprocess_enrolment f with
  | Except.error e => (f, Except.error e)
  | Except.ok g => (g, Except.ok g)

/- ===================================================================
   Frame effects of the remaining stages (for the purity claim).  These
   stages assign only to fresh frames built by groupby/merge or to
   explicit copies, never to their arguments.
   =================================================================== -/

/-- A record of the preprocessed enrolment table seen by
aggregate_by_state. -/
structure EnrolRec where
  state : List Char
  age_0_5 : ℚ
  age_5_17 : ℚ
  age_18_greater : ℚ

structure BioRec where
  state : List Char
  bio_age_5_17 : ℚ
  bio_age_17_ : ℚ

structure DemoRec where
  state : List Char
  demo_age_5_17 : ℚ
  demo_age_17_ : ℚ

def sumOver {α : Type} (l : List α) (key : α → List Char) (k : List Char)
    (f : α → ℚ) : ℚ :=
  ((l.filter (fun x => key x == k)).map f).sum

/-- aggregate_by_state (lines 119-162): per-state groupby sums of the three
tables, outer-merged over the union of state keys with absent sides filled
with zero.  The summed total columns equal the sums of their parts, so they
are carried by the derived total functions on StateRow; the key order of
the pandas groupby does not matter to any claim proved here. -/
def aggregate_by_state (es : List EnrolRec) (bs : List BioRec)
    (ds : List DemoRec) : List StateRow :=
  (((es.map EnrolRec.state) ++ (bs.map BioRec.state)
      ++ (ds.map DemoRec.state)).dedup).map
    (fun k =>
      { state := k,
        age_0_5 := sumOver es EnrolRec.state k EnrolRec.age_0_5,
        age_5_17 := sumOver es EnrolRec.state k EnrolRec.age_5_17,
        age_18_greater := sumOver es EnrolRec.state k EnrolRec.age_18_greater,
        bio_age_5_17 := sumOver bs BioRec.state k BioRec.bio_age_5_17,
        bio_age_17_ := sumOver bs BioRec.state k BioRec.bio_age_17_,
        demo_age_5_17 := sumOver ds DemoRec.state k DemoRec.demo_age_5_17,
        demo_age_17_ := sumOver ds DemoRec.state k DemoRec.demo_age_17_ })

def aggregate_by_state_stage (es : List EnrolRec) (bs : List BioRec)
    (ds : List DemoRec) :
    (List EnrolRec × List BioRec × List DemoRec) × List StateRow :=
  ((es, bs, ds), aggregate_by_state es bs ds)

def calculate_metrics_stage (ss : List StateInput) :
    List StateInput × List Metrics :=
  (ss, calculate_metrics ss)

def calculate_health_score_stage (ms : List Metrics) :
    List Metrics × List ℚ :=
  (ms, calculate_health_score ms)

/-- assign_archetypes (lines 381-409) copies the metrics table and applies
classify_archetype row-wise. -/
def assign_archetypes_stage (rs : List ClassifierRow) :
    List ClassifierRow × List String :=
  (rs, rs.map classify_archetype)

structure RiskRow where
  PDS_Risk : ℚ
  DBT_Risk : ℚ
  Scholarship_Risk : ℚ
  OTP_Risk : ℚ
  Banking_Risk : ℚ
  Composite_Problem_Risk : ℚ

def problem_risks_row (r : StateRow) (yir health : ℚ) : RiskRow :=
  let pds := PDS_Risk r.bio_age_17_ r.age_18_greater
  let dbt := DBT_Risk r.demo_age_17_ r.age_18_greater
  let sch := Scholarship_Risk yir
  let otp := OTP_Risk r.age_5_17 r.demo_age_5_17
  let bank := Banking_Risk health
  { PDS_Risk := pds, DBT_Risk := dbt, Scholarship_Risk := sch,
    OTP_Risk := otp, Banking_Risk := bank,
    Composite_Problem_Risk := (pds + dbt + sch + otp + bank) / 5 }

/-- A state missing from the left merge is modelled with zero counts, which
sends each count-based risk to its 0 branch. -/
def zeroStateRow : StateRow :=
  { state := [], age_0_5 := 0, age_5_17 := 0, age_18_greater := 0,
    bio_age_5_17 := 0, bio_age_17_ := 0, demo_age_5_17 := 0,
    demo_age_17_ := 0 }

/-- calculate_problem_risks (lines 416-485): copy the metrics table,
left-merge the raw state counts on the state key, add the five risk
columns and their mean. -/
def calculate_problem_risks (state_data : List StateRow) (ms : List Metrics)
    (hs : List ℚ) : List RiskRow :=
  (ms.zip hs).map
    (fun p =>
      match state_data.find? (fun r => r.state == p.1.state) with
      | some r => problem_risks_row r p.1.YIR p.2
      | none => problem_risks_row zeroStateRow p.1.YIR p.2)

def calculate_problem_risks_stage (sd : List StateRow) (ms : List Metrics)
    (hs : List ℚ) :
    (List StateRow × List Metrics × List ℚ) × List RiskRow :=
  ((sd, ms, hs), calculate_problem_risks sd ms hs)

def emptyEnrolFrame : EnrolFrame :=
  { state := [], district := [], date := [], month := none,
    age_0_5 := [], age_5_17 := [], age_18_greater := [],
    total_enrolment := none }

/-- C9 counterexample: preprocessing does not leave its input table
unchanged; already on a frame with no rows the call leaves new month and
total columns on the frame that was passed in. -/
theorem preprocess_mutates_input_cex :
    (preprocess_data_stage emptyEnrolFrame).1 ≠ emptyEnrolFrame := by
  intro h
  simp [preprocess_data_stage, preprocess_enrolment, to_datetime_raise,
    emptyEnrolFrame] at h

/-- C9 amended: the aggregation, metric, health-scoring, archetype and
risk stages all leave their inputs unchanged and return fresh tables;
preprocessing instead mutates the frame passed in (parsed date column,
new month and total columns, standardised names) and returns that same
mutated frame. -/
theorem stages_fresh_except_preprocess :
    (∀ es bs ds, (aggregate_by_state_stage es bs ds).1 = (es, bs, ds))
    ∧ (∀ ss, (calculate_metrics_stage ss).1 = ss)
    ∧ (∀ ms, (calculate_health_score_stage ms).1 = ms)
    ∧ (∀ rs, (assign_archetypes_stage rs).1 = rs)
    ∧ (∀ sd ms hs, (calculate_problem_risks_stage sd ms hs).1 = (sd, ms, hs))
    ∧ (∀ f g, preprocess_enrolment f = Except.ok g →
        (preprocess_data_stage f).1 = g) := by
  refine ⟨fun _ _ _ => rfl, fun _ => rfl, fun _ => rfl, fun _ => rfl,
    fun _ _ _ => rfl, ?_⟩
  intro f g h
  simp [preprocess_data_stage, h]

theorem stages_fresh_except_preprocess_witness :
    (preprocess_data_stage emptyEnrolFrame).1
      = { state := [], district := [], date := [], month := some [],
          age_0_5 := [], age_5_17 := [], age_18_greater := [],
          total_enrolment := some [] } :=
  stages_fresh_except_preprocess.2.2.2.2.2 emptyEnrolFrame _ rfl

end Aadhaar
